import Mathlib

/-!
Verification of the bulk-send core of the eebii-api service (src/main.py).

The embedding models the SQLite store as lists of rows in table order, the
request schemas as structures with the same optional fields and defaults,
and the outbound HTTP layer as a `provider` function from the posted JSON
payload to either an HTTP response or a raised network exception
(`requests.post` can raise; a non-2xx response does not raise).  Every send
helper returns the `HttpCall` it posted, so the theorems can count and
inspect dispatch calls.
-/

namespace Eebii

/-- A row of the contacts table (src/main.py, class Contact). -/
structure Contact where
  id : Nat
  name : String
  phone : String
deriving DecidableEq

/-- A row of the groups table (src/main.py, class Group). -/
structure Group where
  id : Nat
  name : String
deriving DecidableEq

/-- A row of the group_members table (src/main.py, class GroupMember). -/
structure GroupMember where
  group_id : Nat
  contact_id : Nat
deriving DecidableEq

/-- The database state: table contents in insertion order. -/
structure Store where
  contacts : List Contact
  groups : List Group
  members : List GroupMember
deriving DecidableEq

/-- dbs.query(Contact).get(cid): primary-key lookup. -/
def Store.getContact (s : Store) (cid : Nat) : Option Contact :=
  s.contacts.find? (fun c => c.id == cid)

/-- dbs.query(GroupMember).filter(GroupMember.group_id == gid).all(), in table order. -/
def Store.membersOf (s : Store) (gid : Nat) : List GroupMember :=
  s.members.filter (fun m => m.group_id == gid)

/-- Pydantic schema TemplateComponentParam (src/main.py lines 107-109). -/
structure TemplateComponentParam where
  type : String := "text"
  text : Option String := none
deriving DecidableEq

/-- Pydantic schema TemplateComponent (src/main.py lines 111-113). -/
structure TemplateComponent where
  type : String := "body"
  parameters : Option (List TemplateComponentParam) := none
deriving DecidableEq

/-- Pydantic schema BulkRecipient (src/main.py lines 127-129). -/
structure BulkRecipient where
  «to» : String
  text : Option String := none
deriving DecidableEq

/-- Pydantic schema BulkReq (src/main.py lines 132-143). -/
structure BulkReq where
  mode : String
  recipients : Option (List BulkRecipient) := none
  group_id : Option Nat := none
  template_name : Option String := none
  language : Option String := some "en_US"
  components : Option (List TemplateComponent) := none
  media_type : Option String := none
  media_id : Option String := none
  caption : Option String := none
deriving DecidableEq

/-- Python truthiness of an optional list (None and [] are falsy). -/
def truthyList {α : Type} : Option (List α) → Bool
  | some (_ :: _) => true
  | _ => false

/-- Python truthiness of an optional integer (None and 0 are falsy). -/
def truthyNat : Option Nat → Bool
  | some n => decide (n ≠ 0)
  | none => false

/-- Python truthiness of an optional string (None and the empty string are falsy). -/
def truthyStr : Option String → Bool
  | some s => decide (s ≠ "")
  | none => false

/-- Python `x or d` for an optional string. -/
def pyOrStr (x : Option String) (d : String) : String :=
  match x with
  | some s => if s = "" then d else s
  | none => d

/-- Python `xs or None` for a list. -/
def listOrNone {α : Type} (xs : List α) : Option (List α) :=
  if xs.isEmpty then none else some xs

/-- Dict produced by TemplateComponentParam.dict(exclude_none=True): the
`type` key is always present, the `text` key is dropped when None. -/
structure WireParam where
  type : String
  text : Option String
deriving DecidableEq

/-- Dict produced by TemplateComponent.dict(exclude_none=True). -/
structure WireComponent where
  type : String
  parameters : Option (List WireParam)
deriving DecidableEq

/-- Pydantic .dict(exclude_none=True) on a template parameter. -/
def TemplateComponentParam.toDict (p : TemplateComponentParam) : WireParam :=
  { type := p.type, text := p.text }

/-- Pydantic .dict(exclude_none=True) on a template component. -/
def TemplateComponent.toDict (c : TemplateComponent) : WireComponent :=
  { type := c.type, parameters := c.parameters.map (fun ps => ps.map TemplateComponentParam.toDict) }

/-- The template object of a template message payload (src/main.py lines 169-172):
name, language code and, when present, the components list. -/
structure TemplateObj where
  name : String
  language_code : String
  components : Option (List WireComponent)
deriving DecidableEq

/-- JSON payload posted to the provider messages endpoint, one constructor per
message type built by send_wa_text / send_wa_template / send_wa_media. -/
inductive Payload where
  | text («to» : String) (body : String)
  | template («to» : String) (tmpl : TemplateObj)
  | media («to» : String) (media_type : String) (media_id : String) (caption : Option String)
deriving DecidableEq

/-- The destination phone of a payload (the "to" key). -/
def Payload.«to» : Payload → String
  | .text t _ => t
  | .template t _ => t
  | .media t _ _ _ => t

/-- Bearer-token headers built by wa_headers (src/main.py lines 148-152). -/
def wa_headers (token : String) : List (String × String) :=
  [("Authorization", "Bearer " ++ token), ("Content-Type", "application/json")]

/-- One outbound POST to the provider: the headers and the JSON body. -/
structure HttpCall where
  headers : List (String × String)
  payload : Payload
deriving DecidableEq

/-- Provider HTTP response: status code and optional JSON body (abstracted). -/
structure HttpResp where
  status_code : Nat
  body : Option String
deriving DecidableEq

/-- Exceptions requests.post may raise (timeout, connection failure). -/
inductive NetExn where
  | timeout
  | connectionError
deriving DecidableEq

/-- send_wa_text (src/main.py lines 154-162): build the text payload, POST it,
return the response dict.  The provider function models the network. -/
def send_wa_text (token : String) (provider : Payload → Except NetExn HttpResp)
    («to» text : String) : HttpCall × Except NetExn HttpResp :=
  let p := Payload.text «to» text
  ({ headers := wa_headers token, payload := p }, provider p)

/-- send_wa_template (src/main.py lines 164-179): the "components" key is added
only when the argument is truthy (a nonempty list). -/
def send_wa_template (token : String) (provider : Payload → Except NetExn HttpResp)
    («to» template_name language : String) (components : Option (List WireComponent)) :
    HttpCall × Except NetExn HttpResp :=
  let comps := if truthyList components then components else none
  let p := Payload.template «to» { name := template_name, language_code := language, components := comps }
  ({ headers := wa_headers token, payload := p }, provider p)

/-- send_wa_media (src/main.py lines 181-191): the caption key is added only
when caption is truthy and the media type is image, video or document. -/
def send_wa_media (token : String) (provider : Payload → Except NetExn HttpResp)
    («to» media_type media_id : String) (caption : Option String) :
    HttpCall × Except NetExn HttpResp :=
  let cap := if truthyStr caption && (media_type == "image" || media_type == "video" || media_type == "document")
    then caption else none
  let p := Payload.media «to» media_type media_id cap
  ({ headers := wa_headers token, payload := p }, provider p)

/-- How send_bulk aborts: an HTTPException (status code, detail) raised by the
handler itself, or a network exception raised by requests.post. -/
inductive BulkAbort where
  | http (code : Nat) (detail : String)
  | net (e : NetExn)
deriving DecidableEq

/-- One element of send_bulk's results list: the recipient's "to" merged with
the send_wa_* response dict (src/main.py lines 384, 389, 393). -/
structure ResultEntry where
  «to» : String
  status_code : Nat
  body : Option String
deriving DecidableEq

/-- The success response of send_bulk (src/main.py line 397). -/
structure BulkResp where
  sent : Nat
  results : List ResultEntry
deriving DecidableEq

/-- The response of bulk_preview (src/main.py lines 357-361). -/
structure PreviewResp where
  mode : String
  count : Nat
  targets : List String
deriving DecidableEq

/-- Target-list construction shared by send_bulk (src/main.py lines 366-377):
explicit recipients win when truthy; otherwise a truthy group_id expands to
its members' contacts with `text = req.caption or ""`; otherwise HTTP 400. -/
def resolveTargets (s : Store) (req : BulkReq) : Except BulkAbort (List BulkRecipient) :=
  if truthyList req.recipients then Except.ok (req.recipients.getD [])
  else if truthyNat req.group_id then
    Except.ok ((s.membersOf (req.group_id.getD 0)).filterMap (fun m =>
      (s.getContact m.contact_id).map (fun c =>
        { «to» := c.phone, text := some (req.caption.getD "") })))
  else Except.error (BulkAbort.http 400 "Provide recipients or group_id")

/-- The per-recipient branch of send_bulk's loop body (src/main.py lines
380-395) up to the outbound call: validate the mode-specific fields, then
invoke the matching send_wa_* helper. -/
def dispatchSend (token : String) (provider : Payload → Except NetExn HttpResp)
    (req : BulkReq) (r : BulkRecipient) : Except BulkAbort (HttpCall × Except NetExn HttpResp) :=
  if req.mode = "text" then
    if truthyStr r.text then
      Except.ok (send_wa_text token provider r.«to» (r.text.getD ""))
    else Except.error (BulkAbort.http 400 "text required in recipients for text mode")
  else if req.mode = "template" then
    if truthyStr req.template_name then
      Except.ok (send_wa_template token provider r.«to» (req.template_name.getD "")
        (pyOrStr req.language "en_US")
        (listOrNone ((req.components.getD []).map TemplateComponent.toDict)))
    else Except.error (BulkAbort.http 400 "template_name required")
  else if req.mode = "media" then
    if truthyStr req.media_type && truthyStr req.media_id then
      Except.ok (send_wa_media token provider r.«to» (req.media_type.getD "")
        (req.media_id.getD "") req.caption)
    else Except.error (BulkAbort.http 400 "media_type and media_id required")
  else Except.error (BulkAbort.http 400 "mode must be text|template|media")

/-- One iteration of send_bulk's loop: on success append the merged result
dict, on a raised exception propagate it; the trace records the call when
requests.post was reached. -/
def dispatchOne (token : String) (provider : Payload → Except NetExn HttpResp)
    (req : BulkReq) (r : BulkRecipient) : List HttpCall × Except BulkAbort ResultEntry :=
  match dispatchSend token provider req r with
  | .error e => ([], Except.error e)
  | .ok (call, .ok resp) => ([call], Except.ok { «to» := r.«to», status_code := resp.status_code, body := resp.body })
  | .ok (call, .error e) => ([call], Except.error (BulkAbort.net e))

/-- send_bulk's `for r in targets` loop: results accumulate in order; the
first raised exception aborts the remainder (Python for-loop semantics). -/
def sendLoop (token : String) (provider : Payload → Except NetExn HttpResp)
    (req : BulkReq) : List BulkRecipient → List HttpCall × Except BulkAbort (List ResultEntry)
  | [] => ([], Except.ok [])
  | r :: rest =>
    match dispatchOne token provider req r with
    | (calls, .error e) => (calls, Except.error e)
    | (calls, .ok entry) =>
      match sendLoop token provider req rest with
      | (calls2, .error e) => (calls ++ calls2, Except.error e)
      | (calls2, .ok entries) => (calls ++ calls2, Except.ok (entry :: entries))

/-- send_bulk (src/main.py lines 363-397).  Returns the trace of outbound
calls made together with the HTTP outcome. -/
def send_bulk (token : String) (provider : Payload → Except NetExn HttpResp)
    (s : Store) (req : BulkReq) : List HttpCall × Except BulkAbort BulkResp :=
  match resolveTargets s req with
  | .error e => ([], Except.error e)
  | .ok targets =>
    match sendLoop token provider req targets with
    | (calls, .error e) => (calls, Except.error e)
    | (calls, .ok entries) => (calls, Except.ok { sent := entries.length, results := entries })

/-- bulk_preview (src/main.py lines 346-361): the expanded list of recipients
that will be messaged, with no validation and no error path. -/
def bulk_preview (s : Store) (req : BulkReq) : PreviewResp :=
  let targets : List String :=
    if truthyList req.recipients then (req.recipients.getD []).map (fun r => r.«to»)
    else if truthyNat req.group_id then
      (s.membersOf (req.group_id.getD 0)).filterMap (fun m =>
        (s.getContact m.contact_id).map (fun c => c.phone))
    else []
  { mode := req.mode, count := targets.length, targets := targets }

/-- The startup credentials check (src/main.py lines 18-25): when WA_TOKEN or
WA_PHONE_ID is unset it only prints a warning; nothing is aborted. -/
def credsMissing (waToken waPhoneId : String) : Bool :=
  waToken == "" || waPhoneId == ""

/-- Modelled from the spec: the E.164 shape required by §4.1 and §8, a leading
plus followed by one or more digits.  src/main.py has no such check; this
definition only states the property the spec claims of resolution output. -/
def isE164 (s : String) : Bool :=
  match s.data with
  | '+' :: c :: cs => (c :: cs).all (fun ch => ch.isDigit)
  | _ => false

/-- The precondition send_bulk's loop checks for a recipient before calling
the provider, per mode (src/main.py lines 381-395). -/
def recipOk (req : BulkReq) (r : BulkRecipient) : Bool :=
  if req.mode = "text" then truthyStr r.text
  else if req.mode = "template" then truthyStr req.template_name
  else if req.mode = "media" then truthyStr req.media_type && truthyStr req.media_id
  else false

/-- A provider that never raises: every post returns an HTTP response
(of any status), as opposed to a timeout or connection failure. -/
def NeverRaises (provider : Payload → Except NetExn HttpResp) : Prop :=
  ∀ p : Payload, ∃ resp : HttpResp, provider p = Except.ok resp

/-- Whether an Except value is a success. -/
def exOk {ε α : Type} : Except ε α → Bool
  | .ok _ => true
  | .error _ => false

instance {ε α : Type} [DecidableEq ε] [DecidableEq α] : DecidableEq (Except ε α) := fun x y =>
  match x, y with
  | .ok a, .ok b =>
    if h : a = b then Decidable.isTrue (by rw [h])
    else Decidable.isFalse (by intro hh; cases hh; exact h rfl)
  | .error a, .error b =>
    if h : a = b then Decidable.isTrue (by rw [h])
    else Decidable.isFalse (by intro hh; cases hh; exact h rfl)
  | .ok _, .error _ => Decidable.isFalse (by intro hh; cases hh)
  | .error _, .ok _ => Decidable.isFalse (by intro hh; cases hh)

/-- Does this call carry a text payload whose body is the given string? -/
def textBodyIs (cap : String) (c : HttpCall) : Bool :=
  match c.payload with
  | Payload.text _ b => b == cap
  | _ => false

/-- One body component carrying an ordered positional-parameter list, built
with the schema defaults (TemplateComponent.type = "body",
TemplateComponentParam.type = "text"), as a caller of send_wa_template
builds it from a parameter list (src/main.py lines 107-119, 315-316). -/
def componentsOfParams (params : List String) : List TemplateComponent :=
  [{ type := "body", parameters := some (params.map (fun s => { type := "text", text := some s })) }]

/-- The empty store. -/
def storeEmpty : Store := ⟨[], [], []⟩

/-- A store whose group 1 exists but has no members. -/
def storeNoMembers : Store := ⟨[], [⟨1, "g"⟩], []⟩

/-- A store where group 1 has one member, the contact with phone "+2". -/
def storeGrp : Store := ⟨[⟨1, "n", "+2"⟩], [⟨1, "g"⟩], [⟨1, 1⟩]⟩

/-- A store where group 7 has one member, the contact with phone "+9". -/
def storeGrp7 : Store := ⟨[⟨1, "a", "+9"⟩], [⟨7, "g"⟩], [⟨7, 1⟩]⟩

/-- A provider that always answers 200. -/
def provOk : Payload → Except NetExn HttpResp := fun _ => Except.ok ⟨200, none⟩

/-- A provider that raises a timeout when posting to "+2" and answers 200
otherwise. -/
def provRaise2 : Payload → Except NetExn HttpResp :=
  fun p => if p.«to» = "+2" then Except.error NetExn.timeout else Except.ok ⟨200, none⟩

/-- A provider that answers 500 for "+2" and 200 otherwise, never raising. -/
def provErr2 : Payload → Except NetExn HttpResp :=
  fun p => if p.«to» = "+2" then Except.ok ⟨500, some "err"⟩ else Except.ok ⟨200, none⟩

/-- Three-recipient text request used for the bulk partial-failure scenarios. -/
def reqThree : BulkReq :=
  { mode := "text", recipients := some [⟨"+1", some "a"⟩, ⟨"+2", some "b"⟩, ⟨"+3", some "c"⟩] }

/-- Group-targeting text request with no explicit recipients and no caption. -/
def reqGroup1 : BulkReq := { mode := "text", group_id := some 1 }

/-- Group-targeting text request naming an unknown group id. -/
def reqGroup5 : BulkReq := { mode := "text", group_id := some 5, caption := some "hi" }

/-- Request with duplicate, non-E.164 explicit recipients. -/
def reqDup : BulkReq :=
  { mode := "text", recipients := some [⟨"abc", some "x"⟩, ⟨"abc", some "x"⟩] }

/-- Request with one malformed explicit recipient. -/
def reqMalformed : BulkReq :=
  { mode := "text", recipients := some [⟨"+abc", some "hello"⟩] }

/-- Request supplying both an explicit recipient and a group id. -/
def reqBoth : BulkReq :=
  { mode := "text", recipients := some [⟨"+1", some "x"⟩], group_id := some 1 }

/-- One-recipient text request used for the missing-credentials scenario. -/
def reqOne : BulkReq := { mode := "text", recipients := some [⟨"+1", some "hi"⟩] }

/-- Text-mode request whose single explicit recipient has no text field. -/
def reqNoText : BulkReq := { mode := "text", recipients := some [⟨"+1", none⟩] }

/-- Group-targeting text request with a caption, aimed at group 7. -/
def reqGroup7 : BulkReq := { mode := "text", group_id := some 7, caption := some "hello" }

end Eebii

namespace Eebii

/-- Resolution with a truthy explicit recipient list returns it verbatim. -/
theorem resolveTargets_explicit (s : Store) (req : BulkReq) (rs : List BulkRecipient)
    (h : req.recipients = some rs) (hne : rs ≠ []) : resolveTargets s req = Except.ok rs := by
  unfold resolveTargets
  rw [h]
  cases rs with
  | nil => exact absurd rfl hne
  | cons a l => rfl

/-- Resolution with no truthy recipients and a truthy group id expands the
group membership, attaching `caption or ""` as each text. -/
theorem resolveTargets_group (s : Store) (req : BulkReq) (g : Nat)
    (hrec : truthyList req.recipients = false) (hg : req.group_id = some g) (hg0 : g ≠ 0) :
    resolveTargets s req = Except.ok ((s.membersOf g).filterMap (fun m =>
      (s.getContact m.contact_id).map (fun c =>
        { «to» := c.phone, text := some (req.caption.getD "") }))) := by
  have h2 : truthyNat (some g) = true := by simp [truthyNat, hg0]
  unfold resolveTargets
  rw [hrec]
  rw [hg]
  simp [h2]

/-- A successful dispatchSend posted exactly the provider's answer for its
payload, with the bearer headers and the recipient's phone as destination. -/
theorem dispatchSend_ok_shape (token : String) (provider : Payload → Except NetExn HttpResp)
    (req : BulkReq) (r : BulkRecipient) (x : HttpCall × Except NetExn HttpResp)
    (h : dispatchSend token provider req r = Except.ok x) :
    x.1.headers = wa_headers token ∧ x.1.payload.«to» = r.«to» ∧ x.2 = provider x.1.payload := by
  unfold dispatchSend at h
  split_ifs at h <;>
    first
      | (rw [Except.ok.injEq] at h; subst h; exact ⟨rfl, rfl, rfl⟩)
      | simp_all

/-- dispatchSend depends on the token only through the recorded headers. -/
theorem dispatchSend_token (t1 t2 : String) (provider : Payload → Except NetExn HttpResp)
    (req : BulkReq) (r : BulkRecipient) :
    dispatchSend t1 provider req r
      = (dispatchSend t2 provider req r).map (fun x => ({ headers := wa_headers t1, payload := x.1.payload }, x.2)) := by
  unfold dispatchSend
  split_ifs <;> simp [send_wa_text, send_wa_template, send_wa_media, Except.map]

/-- When the per-recipient mode check passes, dispatchSend reaches the
provider with a payload destined for that recipient. -/
theorem dispatchSend_total (token : String) (provider : Payload → Except NetExn HttpResp)
    (req : BulkReq) (r : BulkRecipient) (h : recipOk req r = true) :
    ∃ p : Payload, dispatchSend token provider req r
      = Except.ok ({ headers := wa_headers token, payload := p }, provider p) ∧ p.«to» = r.«to» := by
  unfold recipOk at h
  unfold dispatchSend
  split_ifs at h ⊢ <;> first
    | exact ⟨_, rfl, rfl⟩
    | simp_all

/-- Text mode: dispatchSend rejects an empty text and otherwise posts the
text payload built from recipient and body. -/
theorem dispatchSend_text (token : String) (provider : Payload → Except NetExn HttpResp)
    (req : BulkReq) (r : BulkRecipient) (cap : String)
    (hmode : req.mode = "text") (ht : r.text = some cap) :
    dispatchSend token provider req r =
      (if cap = "" then Except.error (BulkAbort.http 400 "text required in recipients for text mode")
       else Except.ok ({ headers := wa_headers token, payload := Payload.text r.«to» cap },
         provider (Payload.text r.«to» cap))) := by
  unfold dispatchSend
  by_cases hc : cap = "" <;> simp [hmode, truthyStr, ht, hc, send_wa_text]

end Eebii

namespace Eebii

/-- dispatchOne makes no call or exactly one, and any call it makes carries
the bearer headers and is addressed to its recipient. -/
theorem dispatchOne_calls_cases (token : String) (provider : Payload → Except NetExn HttpResp)
    (req : BulkReq) (r : BulkRecipient) :
    (dispatchOne token provider req r).1 = [] ∨
    ∃ call, (dispatchOne token provider req r).1 = [call]
      ∧ call.payload.«to» = r.«to» ∧ call.headers = wa_headers token := by
  unfold dispatchOne
  cases hd : dispatchSend token provider req r with
  | error e => exact Or.inl rfl
  | ok x =>
    obtain ⟨hh, hto, hnet⟩ := dispatchSend_ok_shape token provider req r x hd
    right
    rcases x with ⟨call, net⟩
    cases net <;> exact ⟨call, rfl, hto, hh⟩

/-- A successful dispatchOne made exactly one call, addressed to its
recipient, and the recorded entry names that recipient. -/
theorem dispatchOne_ok (token : String) (provider : Payload → Except NetExn HttpResp)
    (req : BulkReq) (r : BulkRecipient) (e : ResultEntry)
    (h : (dispatchOne token provider req r).2 = Except.ok e) :
    e.«to» = r.«to» ∧ (dispatchOne token provider req r).1.map (fun c => c.payload.«to») = [r.«to»] := by
  unfold dispatchOne at h ⊢
  cases hd : dispatchSend token provider req r with
  | error e2 => rw [hd] at h; simp at h
  | ok x =>
    obtain ⟨hh, hto, hnet⟩ := dispatchSend_ok_shape token provider req r x hd
    rw [hd] at h
    rcases x with ⟨call, net⟩
    cases net with
    | error e2 => simp at h
    | ok resp =>
      simp only [Except.ok.injEq] at h
      subst h
      exact ⟨rfl, by simp [hto]⟩

/-- dispatchOne depends on the token only through the recorded headers. -/
theorem dispatchOne_token (t1 t2 : String) (provider : Payload → Except NetExn HttpResp)
    (req : BulkReq) (r : BulkRecipient) :
    (dispatchOne t1 provider req r).1.map (fun c => c.payload)
      = (dispatchOne t2 provider req r).1.map (fun c => c.payload)
    ∧ (dispatchOne t1 provider req r).2 = (dispatchOne t2 provider req r).2 := by
  have hB := dispatchSend_token t1 t2 provider req r
  unfold dispatchOne
  cases hd : dispatchSend t2 provider req r with
  | error e =>
    rw [hd] at hB
    simp only [Except.map] at hB
    rw [hB]
    exact ⟨rfl, rfl⟩
  | ok x =>
    rw [hd] at hB
    simp only [Except.map] at hB
    rw [hB]
    rcases x with ⟨call, net⟩
    cases net <;> exact ⟨rfl, rfl⟩

/-- When the mode check passes and the provider does not raise, dispatchOne
succeeds with one call addressed to the recipient. -/
theorem dispatchOne_total (token : String) (provider : Payload → Except NetExn HttpResp)
    (req : BulkReq) (r : BulkRecipient)
    (hok : recipOk req r = true) (hnr : NeverRaises provider) :
    ∃ (call : HttpCall) (resp : HttpResp), dispatchOne token provider req r
        = ([call], Except.ok { «to» := r.«to», status_code := resp.status_code, body := resp.body })
      ∧ call.payload.«to» = r.«to» := by
  obtain ⟨p, hsend, hto⟩ := dispatchSend_total token provider req r hok
  obtain ⟨resp, hresp⟩ := hnr p
  refine ⟨{ headers := wa_headers token, payload := p }, resp, ?_, hto⟩
  unfold dispatchOne
  rw [hsend, hresp]

/-- Unrolling sendLoop when the head recipient aborts. -/
theorem sendLoop_cons_err (token : String) (provider : Payload → Except NetExn HttpResp)
    (req : BulkReq) (r : BulkRecipient) (l : List BulkRecipient)
    (calls : List HttpCall) (e : BulkAbort)
    (h : dispatchOne token provider req r = (calls, Except.error e)) :
    sendLoop token provider req (r :: l) = (calls, Except.error e) := by
  simp [sendLoop, h]

/-- Unrolling sendLoop when the head recipient succeeds: its calls prefix the
tail's calls and its entry prefixes the tail's entries. -/
theorem sendLoop_cons_ok (token : String) (provider : Payload → Except NetExn HttpResp)
    (req : BulkReq) (r : BulkRecipient) (l : List BulkRecipient)
    (calls : List HttpCall) (entry : ResultEntry)
    (h : dispatchOne token provider req r = (calls, Except.ok entry)) :
    (sendLoop token provider req (r :: l)).1 = calls ++ (sendLoop token provider req l).1
    ∧ (sendLoop token provider req (r :: l)).2
        = (sendLoop token provider req l).2.map (fun es => entry :: es) := by
  rcases hE2 : sendLoop token provider req l with ⟨calls2, res2⟩
  cases res2 <;> simp [sendLoop, h, hE2, Except.map]

end Eebii

namespace Eebii

/-- The phones sendLoop dispatched to are a prefix of its target phones. -/
theorem sendLoop_trace (token : String) (provider : Payload → Except NetExn HttpResp)
    (req : BulkReq) (l : List BulkRecipient) :
    ∃ rest, (sendLoop token provider req l).1.map (fun c => c.payload.«to») ++ rest
      = l.map (fun r => r.«to») := by
  induction l with
  | nil => exact ⟨[], rfl⟩
  | cons r l ih =>
    rcases hE : dispatchOne token provider req r with ⟨calls, res⟩
    have hcases := dispatchOne_calls_cases token provider req r
    rw [hE] at hcases
    cases res with
    | error e =>
      rw [sendLoop_cons_err token provider req r l calls e hE]
      rcases hcases with hnil | ⟨call, hc, hto, hhd⟩
      · have hc0 : calls = [] := hnil
        subst hc0
        exact ⟨r.«to» :: l.map (fun x : BulkRecipient => x.«to»), rfl⟩
      · have hc1 : calls = [call] := hc
        subst hc1
        exact ⟨l.map (fun x : BulkRecipient => x.«to»), by simp [hto]⟩
    | ok entry =>
      obtain ⟨h1, h2⟩ := sendLoop_cons_ok token provider req r l calls entry hE
      have hok := dispatchOne_ok token provider req r entry (by rw [hE])
      rw [hE] at hok
      obtain ⟨rest, hrest⟩ := ih
      refine ⟨rest, ?_⟩
      rw [h1]
      simp only [List.map_append, List.append_assoc]
      rw [hok.2, hrest]
      rfl

/-- A successful sendLoop recorded one entry per target and one call per
target, both in target order. -/
theorem sendLoop_ok (token : String) (provider : Payload → Except NetExn HttpResp)
    (req : BulkReq) (l : List BulkRecipient) (es : List ResultEntry)
    (h : (sendLoop token provider req l).2 = Except.ok es) :
    es.map (fun e => e.«to») = l.map (fun r => r.«to»)
    ∧ (sendLoop token provider req l).1.map (fun c => c.payload.«to») = l.map (fun r => r.«to») := by
  induction l generalizing es with
  | nil =>
    simp only [sendLoop, Except.ok.injEq] at h
    subst h
    exact ⟨rfl, rfl⟩
  | cons r l ih =>
    rcases hE : dispatchOne token provider req r with ⟨calls, res⟩
    cases res with
    | error e =>
      rw [sendLoop_cons_err token provider req r l calls e hE] at h
      simp at h
    | ok entry =>
      obtain ⟨h1, h2⟩ := sendLoop_cons_ok token provider req r l calls entry hE
      rw [h2] at h
      have hone := dispatchOne_ok token provider req r entry (by rw [hE])
      rw [hE] at hone
      cases hE2 : (sendLoop token provider req l).2 with
      | error e2 => rw [hE2] at h; simp [Except.map] at h
      | ok es2 =>
        rw [hE2] at h
        simp only [Except.map, Except.ok.injEq] at h
        subst h
        obtain ⟨hto, htr⟩ := ih es2 hE2
        constructor
        · simp [hone.1, hto]
        · rw [h1]
          simp only [List.map_append]
          rw [hone.2, htr]
          rfl

/-- When every target passes its mode check and the provider never raises,
sendLoop succeeds. -/
theorem sendLoop_total (token : String) (provider : Payload → Except NetExn HttpResp)
    (req : BulkReq) (hnr : NeverRaises provider) (l : List BulkRecipient)
    (hall : ∀ r ∈ l, recipOk req r = true) :
    ∃ es, (sendLoop token provider req l).2 = Except.ok es := by
  induction l with
  | nil => exact ⟨[], rfl⟩
  | cons r l ih =>
    obtain ⟨call, resp, hd, hto⟩ := dispatchOne_total token provider req r
      (hall r (by simp)) hnr
    obtain ⟨es, hes⟩ := ih (fun x hx => hall x (by simp [hx]))
    obtain ⟨h1, h2⟩ := sendLoop_cons_ok token provider req r l [call] _ hd
    rw [h2, hes]
    exact ⟨_, rfl⟩

/-- sendLoop depends on the token only through the recorded headers. -/
theorem sendLoop_token (t1 t2 : String) (provider : Payload → Except NetExn HttpResp)
    (req : BulkReq) (l : List BulkRecipient) :
    (sendLoop t1 provider req l).1.map (fun c => c.payload)
      = (sendLoop t2 provider req l).1.map (fun c => c.payload)
    ∧ (sendLoop t1 provider req l).2 = (sendLoop t2 provider req l).2 := by
  induction l with
  | nil => exact ⟨rfl, rfl⟩
  | cons r l ih =>
    obtain ⟨hp, h2⟩ := dispatchOne_token t1 t2 provider req r
    rcases hE1 : dispatchOne t1 provider req r with ⟨calls1, res1⟩
    rcases hE2 : dispatchOne t2 provider req r with ⟨calls2, res2⟩
    rw [hE1, hE2] at hp h2
    simp only at hp h2
    subst h2
    cases res1 with
    | error e =>
      rw [sendLoop_cons_err t1 provider req r l calls1 e hE1,
        sendLoop_cons_err t2 provider req r l calls2 e hE2]
      exact ⟨hp, rfl⟩
    | ok entry =>
      obtain ⟨ha1, hb1⟩ := sendLoop_cons_ok t1 provider req r l calls1 entry hE1
      obtain ⟨ha2, hb2⟩ := sendLoop_cons_ok t2 provider req r l calls2 entry hE2
      constructor
      · rw [ha1, ha2]
        simp only [List.map_append]
        rw [hp, ih.1]
      · rw [hb1, hb2, ih.2]

end Eebii

namespace Eebii

/-- A failed resolution short-circuits send_bulk with no calls made. -/
theorem send_bulk_err (token : String) (provider : Payload → Except NetExn HttpResp)
    (s : Store) (req : BulkReq) (e : BulkAbort)
    (h : resolveTargets s req = Except.error e) :
    send_bulk token provider s req = ([], Except.error e) := by
  simp [send_bulk, h]

/-- A successful resolution reduces send_bulk to its loop over the targets. -/
theorem send_bulk_ok_targets (token : String) (provider : Payload → Except NetExn HttpResp)
    (s : Store) (req : BulkReq) (tl : List BulkRecipient)
    (h : resolveTargets s req = Except.ok tl) :
    (send_bulk token provider s req).1 = (sendLoop token provider req tl).1
    ∧ (send_bulk token provider s req).2
        = (match (sendLoop token provider req tl).2 with
          | .error e => Except.error e
          | .ok es => Except.ok { sent := es.length, results := es }) := by
  rcases hL : sendLoop token provider req tl with ⟨calls, res⟩
  cases res <;> simp [send_bulk, h, hL]

/-- An empty resolved target list makes send_bulk answer success with zero
sent and no calls. -/
theorem send_bulk_of_empty (token : String) (provider : Payload → Except NetExn HttpResp)
    (s : Store) (req : BulkReq) (h : resolveTargets s req = Except.ok []) :
    send_bulk token provider s req = ([], Except.ok { sent := 0, results := [] }) := by
  obtain ⟨h1, h2⟩ := send_bulk_ok_targets token provider s req [] h
  have hsl : sendLoop token provider req [] = ([], Except.ok []) := rfl
  rw [hsl] at h1 h2
  simp only [List.length_nil] at h2
  exact Prod.ext h1 h2

/-- bulk_preview lists exactly the phones of the list send_bulk resolves,
and is empty when resolution aborts. -/
theorem resolve_preview (s : Store) (req : BulkReq) :
    (∀ e, resolveTargets s req = Except.error e → (bulk_preview s req).targets = [])
    ∧ (∀ tl, resolveTargets s req = Except.ok tl →
        tl.map (fun r => r.«to») = (bulk_preview s req).targets) := by
  have hcomp : ∀ o : Option Contact,
      (o.map (fun c => ({ «to» := c.phone, text := some (req.caption.getD "") } : BulkRecipient))).map
          (fun r => r.«to»)
        = o.map (fun c => c.phone) := by
    intro o
    cases o <;> rfl
  unfold resolveTargets bulk_preview
  split_ifs with h1 h2
  · constructor
    · intro e he
      simp at he
    · intro tl htl
      simp only [Except.ok.injEq] at htl
      subst htl
      rfl
  · constructor
    · intro e he
      simp at he
    · intro tl htl
      simp only [Except.ok.injEq] at htl
      subst htl
      simp only [List.map_filterMap]
      simp only [hcomp]
  · constructor
    · intro e he
      rfl
    · intro tl htl
      simp at htl

/-- Every target the group branch of resolution produces carries
`caption or ""` as its text. -/
theorem resolveTargets_group_text (s : Store) (req : BulkReq) (g : Nat)
    (hrec : truthyList req.recipients = false) (hg : req.group_id = some g) (hg0 : g ≠ 0)
    (tl : List BulkRecipient) (h : resolveTargets s req = Except.ok tl) :
    ∀ r ∈ tl, r.text = some (req.caption.getD "") := by
  rw [resolveTargets_group s req g hrec hg hg0] at h
  simp only [Except.ok.injEq] at h
  subst h
  intro r hr
  simp only [List.mem_filterMap] at hr
  obtain ⟨m, hm, hmap⟩ := hr
  cases hc : s.getContact m.contact_id with
  | none => rw [hc] at hmap; simp at hmap
  | some c =>
    rw [hc] at hmap
    rw [show (some c).map (fun c => ({ «to» := c.phone, text := some (req.caption.getD "") } : BulkRecipient)) = some { «to» := c.phone, text := some (req.caption.getD "") } from rfl, Option.some.injEq] at hmap
    rw [← hmap]

/-- A falsy optional string defaults to the empty string. -/
theorem falsy_getD (o : Option String) (h : truthyStr o = false) : o.getD "" = "" := by
  cases o with
  | none => rfl
  | some s =>
    simp only [truthyStr, decide_eq_false_iff_not, not_not] at h
    simp [h]

/-- In text mode, every call sendLoop makes over recipients whose text is
`cap` is a text payload with body `cap`. -/
theorem sendLoop_text_all (token : String) (provider : Payload → Except NetExn HttpResp)
    (req : BulkReq) (cap : String) (hmode : req.mode = "text")
    (l : List BulkRecipient) (hall : ∀ r ∈ l, r.text = some cap) :
    (sendLoop token provider req l).1.all (textBodyIs cap) = true := by
  induction l with
  | nil => rfl
  | cons r l ih =>
    have hds := dispatchSend_text token provider req r cap hmode (hall r (by simp))
    by_cases hc : cap = ""
    · rw [if_pos hc] at hds
      have hdo : dispatchOne token provider req r
          = ([], Except.error (BulkAbort.http 400 "text required in recipients for text mode")) := by
        unfold dispatchOne
        rw [hds]
      rw [sendLoop_cons_err token provider req r l _ _ hdo]
      rfl
    · rw [if_neg hc] at hds
      have hrest := ih (fun x hx => hall x (by simp [hx]))
      cases hp : provider (Payload.text r.«to» cap) with
      | error e =>
        have hdo : dispatchOne token provider req r
            = ([{ headers := wa_headers token, payload := Payload.text r.«to» cap }],
               Except.error (BulkAbort.net e)) := by
          unfold dispatchOne
          rw [hds, hp]
        rw [sendLoop_cons_err token provider req r l _ _ hdo]
        simp [textBodyIs]
      | ok resp =>
        have hdo : dispatchOne token provider req r
            = ([{ headers := wa_headers token, payload := Payload.text r.«to» cap }],
               Except.ok { «to» := r.«to», status_code := resp.status_code, body := resp.body }) := by
          unfold dispatchOne
          rw [hds, hp]
        obtain ⟨h1, h2⟩ := sendLoop_cons_ok token provider req r l _ _ hdo
        rw [h1]
        simp [List.all_append, textBodyIs, hrest]

/-- In text mode, a head recipient with empty text aborts the loop before
any call. -/
theorem sendLoop_text_empty (token : String) (provider : Payload → Except NetExn HttpResp)
    (req : BulkReq) (r : BulkRecipient) (l : List BulkRecipient)
    (hmode : req.mode = "text") (ht : r.text = some "") :
    sendLoop token provider req (r :: l)
      = ([], Except.error (BulkAbort.http 400 "text required in recipients for text mode")) := by
  have hds := dispatchSend_text token provider req r "" hmode ht
  rw [if_pos rfl] at hds
  have hdo : dispatchOne token provider req r
      = ([], Except.error (BulkAbort.http 400 "text required in recipients for text mode")) := by
    unfold dispatchOne
    rw [hds]
  exact sendLoop_cons_err token provider req r l _ _ hdo

end Eebii

namespace Eebii

/-- C1 (amended): when every resolved recipient passes its mode check and the
provider never raises an exception, send_bulk records one per-recipient result
entry per target — whatever HTTP status the provider answered, including
non-2xx — and dispatches one call per target in order, returning success.
(The original claim fails for dispatches that raise: see the counterexample,
where a raised exception propagates and aborts the remaining recipients.) -/
theorem send_bulk_records_and_continues (token : String)
    (provider : Payload → Except NetExn HttpResp) (s : Store) (req : BulkReq)
    (tl : List BulkRecipient) (hnr : NeverRaises provider)
    (hres : resolveTargets s req = Except.ok tl)
    (hall : ∀ r ∈ tl, recipOk req r = true) :
    ∃ resp : BulkResp, (send_bulk token provider s req).2 = Except.ok resp
      ∧ resp.results.map (fun e => e.«to») = tl.map (fun r => r.«to»)
      ∧ resp.sent = tl.length
      ∧ (send_bulk token provider s req).1.map (fun c => c.payload.«to»)
          = tl.map (fun r => r.«to») := by
  obtain ⟨es, hes⟩ := sendLoop_total token provider req hnr tl hall
  obtain ⟨hto, htr⟩ := sendLoop_ok token provider req tl es hes
  obtain ⟨h1, h2⟩ := send_bulk_ok_targets token provider s req tl hres
  rw [hes] at h2
  refine ⟨⟨es.length, es⟩, h2, hto, ?_, ?_⟩
  · have hlen := congrArg List.length hto
    simpa using hlen
  · rw [h1, htr]

/-- C1 witness: three text recipients with the provider answering 500 for the
second; all three get an entry and all three are dispatched. -/
theorem send_bulk_records_and_continues_witness :
    ∃ resp : BulkResp, (send_bulk "t" provErr2 storeEmpty reqThree).2 = Except.ok resp
      ∧ resp.results.map (fun e => e.«to») = ["+1", "+2", "+3"]
      ∧ resp.sent = 3
      ∧ (send_bulk "t" provErr2 storeEmpty reqThree).1.map (fun c => c.payload.«to»)
          = ["+1", "+2", "+3"] :=
  send_bulk_records_and_continues "t" provErr2 storeEmpty reqThree
    [⟨"+1", some "a"⟩, ⟨"+2", some "b"⟩, ⟨"+3", some "c"⟩]
    (fun p => by unfold provErr2; split <;> exact ⟨_, rfl⟩)
    (by decide) (by decide)

/-- C1 counterexample: with three recipients and a dispatch that raises a
timeout for the second, the exception propagates out of send_bulk, the third
recipient is never dispatched, and no per-recipient error is recorded —
refuting the claim that a dispatch failure cannot abort the batch. -/
theorem send_bulk_abort_on_raise_cex :
    (send_bulk "t" provRaise2 storeEmpty reqThree).2
        = Except.error (BulkAbort.net NetExn.timeout)
    ∧ (send_bulk "t" provRaise2 storeEmpty reqThree).1.map (fun c => c.payload.«to»)
        = ["+1", "+2"] := by
  exact ⟨by decide, by decide⟩

/-- C2 (amended): an empty resolved recipient list does not make send_bulk
fail: it performs zero dispatch calls and returns success with sent = 0 and
no results.  There is no EmptyRecipients error in the code. -/
theorem send_bulk_empty_resolved (token : String)
    (provider : Payload → Except NetExn HttpResp) (s : Store) (req : BulkReq)
    (h : resolveTargets s req = Except.ok []) :
    send_bulk token provider s req = ([], Except.ok { sent := 0, results := [] }) :=
  send_bulk_of_empty token provider s req h

/-- C2 witness: a group id with no membership rows resolves to the empty list
and send_bulk answers success with zero calls. -/
theorem send_bulk_empty_resolved_witness :
    send_bulk "t" provOk storeEmpty reqGroup1 = ([], Except.ok { sent := 0, results := [] }) :=
  send_bulk_empty_resolved "t" provOk storeEmpty reqGroup1 (by decide)

/-- C2 counterexample: group 1 exists with zero members, yet send_bulk
returns HTTP success with sent = 0 and makes zero dispatch calls instead of
failing with an EmptyRecipients error. -/
theorem send_bulk_no_empty_error_cex :
    storeNoMembers.groups = [⟨1, "g"⟩]
    ∧ send_bulk "t" provOk storeNoMembers reqGroup1
        = ([], Except.ok { sent := 0, results := [] }) := by
  exact ⟨by decide, by decide⟩

/-- C3 (amended): recipient resolution performs no deduplication and no
E.164 validation: a truthy explicit recipient list is used verbatim,
duplicates and malformed phones included. -/
theorem resolve_explicit_verbatim (s : Store) (req : BulkReq) (rs : List BulkRecipient)
    (h : req.recipients = some rs) (hne : rs ≠ []) :
    resolveTargets s req = Except.ok rs :=
  resolveTargets_explicit s req rs h hne

/-- C3 witness: the duplicated malformed list comes back verbatim. -/
theorem resolve_explicit_verbatim_witness :
    reqDup.recipients = some [⟨"abc", some "x"⟩, ⟨"abc", some "x"⟩]
    ∧ resolveTargets storeEmpty reqDup
        = Except.ok [⟨"abc", some "x"⟩, ⟨"abc", some "x"⟩] :=
  ⟨rfl, resolve_explicit_verbatim storeEmpty reqDup
    [⟨"abc", some "x"⟩, ⟨"abc", some "x"⟩] rfl (by decide)⟩

/-- C3 counterexample: the resolved list for a request with two identical
non-E.164 recipients contains a duplicate phone, and that phone fails the
E.164 shape — refuting both halves of the claim. -/
theorem resolve_dup_e164_cex :
    resolveTargets storeEmpty reqDup = Except.ok [⟨"abc", some "x"⟩, ⟨"abc", some "x"⟩]
    ∧ ¬ (([⟨"abc", some "x"⟩, ⟨"abc", some "x"⟩] : List BulkRecipient).map
        (fun r => r.«to»)).Nodup
    ∧ isE164 "abc" = false := by
  exact ⟨by decide, by decide, by decide⟩

end Eebii

namespace Eebii

/-- C4 (amended): no phone-shape validation exists anywhere on the send path:
an explicit recipient whose phone fails the E.164 shape is neither rejected
with a validation error nor dropped — send_bulk dispatches to it as-is and
reports success for it. -/
theorem send_bulk_malformed_dispatched (token : String)
    (provider : Payload → Except NetExn HttpResp) (s : Store) (phone txt : String)
    (hmal : isE164 phone = false) (htxt : txt ≠ "") (hnr : NeverRaises provider) :
    ∃ resp : BulkResp,
      (send_bulk token provider s { mode := "text", recipients := some [⟨phone, some txt⟩] }).1
          = [{ headers := wa_headers token, payload := Payload.text phone txt }]
      ∧ (send_bulk token provider s { mode := "text", recipients := some [⟨phone, some txt⟩] }).2
          = Except.ok resp
      ∧ resp.sent = 1 ∧ resp.results.map (fun e => e.«to») = [phone] := by
  obtain ⟨respP, hp⟩ := hnr (Payload.text phone txt)
  have hds : dispatchSend token provider { mode := "text", recipients := some [⟨phone, some txt⟩] }
      ⟨phone, some txt⟩
      = (if txt = "" then Except.error (BulkAbort.http 400 "text required in recipients for text mode")
         else Except.ok ({ headers := wa_headers token, payload := Payload.text phone txt },
           provider (Payload.text phone txt))) :=
    dispatchSend_text token provider _ ⟨phone, some txt⟩ txt rfl rfl
  rw [if_neg htxt] at hds
  have hdo : dispatchOne token provider { mode := "text", recipients := some [⟨phone, some txt⟩] }
      ⟨phone, some txt⟩
      = ([{ headers := wa_headers token, payload := Payload.text phone txt }],
         Except.ok { «to» := phone, status_code := respP.status_code, body := respP.body }) := by
    unfold dispatchOne
    rw [hds, hp]
  have hsl : sendLoop token provider { mode := "text", recipients := some [⟨phone, some txt⟩] }
      [⟨phone, some txt⟩]
      = ([{ headers := wa_headers token, payload := Payload.text phone txt }],
         Except.ok [{ «to» := phone, status_code := respP.status_code, body := respP.body }]) := by
    simp [sendLoop, hdo]
  have hres : resolveTargets s { mode := "text", recipients := some [⟨phone, some txt⟩] }
      = Except.ok [⟨phone, some txt⟩] :=
    resolveTargets_explicit s _ _ rfl (by simp)
  obtain ⟨h1, h2⟩ := send_bulk_ok_targets token provider s _ _ hres
  rw [hsl] at h1 h2
  exact ⟨⟨1, [{ «to» := phone, status_code := respP.status_code, body := respP.body }]⟩,
    h1, h2, rfl, by simp⟩

/-- C4 witness: the malformed phone "+abc" is dispatched as-is and counted. -/
theorem send_bulk_malformed_dispatched_witness :
    isE164 "+abc" = false
    ∧ ∃ resp : BulkResp,
        (send_bulk "t" provOk storeEmpty reqMalformed).1
            = [{ headers := wa_headers "t", payload := Payload.text "+abc" "hello" }]
        ∧ (send_bulk "t" provOk storeEmpty reqMalformed).2 = Except.ok resp
        ∧ resp.sent = 1 ∧ resp.results.map (fun e => e.«to») = ["+abc"] :=
  ⟨by decide, send_bulk_malformed_dispatched "t" provOk storeEmpty "+abc" "hello"
    (by decide) (by decide) (fun p => ⟨⟨200, none⟩, rfl⟩)⟩

/-- C4 counterexample: the request whose only entry is the non-E.164 phone
"+abc" produces no validation error: the entry is dispatched and the request
succeeds — refuting the claim that such a request is rejected before any
dispatch. -/
theorem send_bulk_no_validation_cex :
    isE164 "+abc" = false
    ∧ (send_bulk "t" provOk storeEmpty reqMalformed).1.map (fun c => c.payload)
        = [Payload.text "+abc" "hello"]
    ∧ (send_bulk "t" provOk storeEmpty reqMalformed).2
        = Except.ok { sent := 1, results := [⟨"+abc", 200, none⟩] } := by
  exact ⟨by decide, by decide, by decide⟩

/-- C5 (amended): when a request supplies both a truthy explicit recipient
list and a group id, the explicit list wins and the group's members are
ignored — the resolved set is not the union. -/
theorem resolve_explicit_ignores_group (s : Store) (req : BulkReq)
    (rs : List BulkRecipient) (g : Nat)
    (h : req.recipients = some rs) (hne : rs ≠ []) (hg : req.group_id = some g) :
    resolveTargets s req = Except.ok rs :=
  resolveTargets_explicit s req rs h hne

/-- C5 witness: with both an explicit recipient and group 1 supplied, only
the explicit recipient is resolved. -/
theorem resolve_explicit_ignores_group_witness :
    reqBoth.group_id = some 1
    ∧ resolveTargets storeGrp reqBoth = Except.ok [⟨"+1", some "x"⟩] :=
  ⟨rfl, resolve_explicit_ignores_group storeGrp reqBoth [⟨"+1", some "x"⟩] 1
    rfl (by decide) rfl⟩

/-- C5 counterexample: group 1's member has phone "+2", the request supplies
both that group and the explicit recipient "+1", yet "+2" is absent from the
resolved list — the result is not the union the claim requires. -/
theorem resolve_no_union_cex :
    resolveTargets storeGrp reqBoth = Except.ok [⟨"+1", some "x"⟩]
    ∧ storeGrp.membersOf 1 = [⟨1, 1⟩]
    ∧ storeGrp.getContact 1 = some ⟨1, "n", "+2"⟩
    ∧ ("+2" ∈ ([⟨"+1", some "x"⟩] : List BulkRecipient).map (fun r => r.«to») → False) := by
  exact ⟨by decide, by decide, by decide, by decide⟩

/-- C6 (amended): send_bulk never checks group existence: a truthy group_id
with no membership rows — in particular an unknown group — resolves to an
empty target list and send_bulk answers success with sent = 0 instead of a
NotFound failure. -/
theorem send_bulk_unknown_group (token : String)
    (provider : Payload → Except NetExn HttpResp) (s : Store) (req : BulkReq) (g : Nat)
    (hrec : truthyList req.recipients = false) (hg : req.group_id = some g)
    (hg0 : g ≠ 0) (hmem : s.membersOf g = []) :
    send_bulk token provider s req = ([], Except.ok { sent := 0, results := [] }) := by
  have hres := resolveTargets_group s req g hrec hg hg0
  rw [hmem] at hres
  simp only [List.filterMap_nil] at hres
  exact send_bulk_of_empty token provider s req hres

/-- C6 witness: the empty store knows no group 5, and send_bulk on group 5
succeeds with zero sent. -/
theorem send_bulk_unknown_group_witness :
    send_bulk "t" provOk storeEmpty reqGroup5 = ([], Except.ok { sent := 0, results := [] }) :=
  send_bulk_unknown_group "t" provOk storeEmpty reqGroup5 5 rfl rfl
    (by decide) (by decide)

/-- C6 counterexample: no group exists in the store, the request names group
id 5, and send_bulk returns success with zero dispatches — not the NotFound
(404) failure the claim requires. -/
theorem send_bulk_unknown_group_cex :
    storeEmpty.groups = []
    ∧ send_bulk "x" provOk storeEmpty reqGroup5 = ([], Except.ok { sent := 0, results := [] })
    ∧ (bulk_preview storeEmpty reqGroup5).targets = [] := by
  exact ⟨by decide, by decide, by decide⟩

end Eebii

namespace Eebii

/-- C7: a template dispatch built from a template name, a language and an
ordered parameter list posts a payload whose template carries that name and
language code and whose single body component lists exactly one text-typed
entry per input parameter, in order. -/
theorem send_wa_template_params (token : String)
    (provider : Payload → Except NetExn HttpResp) (dest tname lang : String)
    (params : List String) :
    (send_wa_template token provider dest tname lang
        (listOrNone ((componentsOfParams params).map TemplateComponent.toDict))).1.payload
      = Payload.template dest
          { name := tname, language_code := lang,
            components := some [⟨"body", some (params.map (fun s => ⟨"text", some s⟩))⟩] } := by
  simp [send_wa_template, componentsOfParams, TemplateComponent.toDict,
    TemplateComponentParam.toDict, listOrNone, truthyList, List.map_map, Function.comp]

/-- C9 (amended): the phones send_bulk dispatches to always form a prefix of
bulk_preview's target list for the same request and store, and when
send_bulk succeeds the two lists coincide exactly; a per-recipient
validation failure or a raised dispatch exception cuts the dispatched list
short of the preview. -/
theorem bulk_preview_trace (token : String)
    (provider : Payload → Except NetExn HttpResp) (s : Store) (req : BulkReq) :
    (∃ rest, (send_bulk token provider s req).1.map (fun c => c.payload.«to») ++ rest
        = (bulk_preview s req).targets)
    ∧ (exOk (send_bulk token provider s req).2 = true →
        (send_bulk token provider s req).1.map (fun c => c.payload.«to»)
          = (bulk_preview s req).targets) := by
  obtain ⟨hErr, hOk⟩ := resolve_preview s req
  cases hR : resolveTargets s req with
  | error e =>
    rw [send_bulk_err token provider s req e hR]
    have hT := hErr e hR
    constructor
    · exact ⟨[], by simp [hT]⟩
    · intro hok
      simp [exOk] at hok
  | ok tl =>
    obtain ⟨h1, h2⟩ := send_bulk_ok_targets token provider s req tl hR
    have hT := hOk tl hR
    constructor
    · obtain ⟨rest, hrest⟩ := sendLoop_trace token provider req tl
      refine ⟨rest, ?_⟩
      rw [h1, hrest, hT]
    · intro hok
      cases hL : (sendLoop token provider req tl).2 with
      | error e =>
        rw [hL] at h2
        rw [h2] at hok
        simp [exOk] at hok
      | ok es =>
        obtain ⟨hto, htr⟩ := sendLoop_ok token provider req tl es hL
        rw [h1, htr, hT]

/-- C9 witness: for a group request whose recipient succeeds, the dispatched
phones equal the preview targets. -/
theorem bulk_preview_trace_witness :
    (send_bulk "t" provOk storeGrp7 reqGroup7).1.map (fun c => c.payload.«to»)
      = (bulk_preview storeGrp7 reqGroup7).targets :=
  (bulk_preview_trace "t" provOk storeGrp7 reqGroup7).2 (by decide)

/-- C9 counterexample: a text-mode recipient without a text field appears in
bulk_preview's targets but send_bulk dispatches to nobody (it aborts with
HTTP 400 before the first call) — the two lists differ. -/
theorem preview_dispatch_mismatch_cex :
    (bulk_preview storeEmpty reqNoText).targets = ["+1"]
    ∧ (send_bulk "t" provOk storeEmpty reqNoText).1 = []
    ∧ (send_bulk "t" provOk storeEmpty reqNoText).2
        = Except.error (BulkAbort.http 400 "text required in recipients for text mode") := by
  exact ⟨by decide, by decide, by decide⟩

/-- C10: in text mode over a group, every dispatched message body is
`caption or ""` — the body is taken from the request's caption — and when the
caption is absent or empty while the group resolves to at least one phone,
send_bulk fails with HTTP 400 before dispatching to any recipient. -/
theorem send_bulk_group_caption (token : String)
    (provider : Payload → Except NetExn HttpResp) (s : Store) (req : BulkReq) (g : Nat)
    (hmode : req.mode = "text") (hrec : truthyList req.recipients = false)
    (hg : req.group_id = some g) (hg0 : g ≠ 0) :
    (send_bulk token provider s req).1.all (textBodyIs (req.caption.getD "")) = true
    ∧ (truthyStr req.caption = false → (bulk_preview s req).targets ≠ [] →
        send_bulk token provider s req
          = ([], Except.error (BulkAbort.http 400 "text required in recipients for text mode"))) := by
  have hres0 := resolveTargets_group s req g hrec hg hg0
  obtain ⟨tl, hres⟩ : ∃ tl, resolveTargets s req = Except.ok tl := ⟨_, hres0⟩
  have htext := resolveTargets_group_text s req g hrec hg hg0 tl hres
  obtain ⟨h1, h2⟩ := send_bulk_ok_targets token provider s req tl hres
  constructor
  · rw [h1]
    exact sendLoop_text_all token provider req _ hmode tl htext
  · intro hcap hne
    have hcap0 : req.caption.getD "" = "" := falsy_getD _ hcap
    have hprev := (resolve_preview s req).2 tl hres
    cases tl with
    | nil =>
      rw [← hprev] at hne
      simp at hne
    | cons r0 rest =>
      have hr0 : r0.text = some "" := by
        have hx := htext r0 (by simp)
        rw [hcap0] at hx
        exact hx
      have hsl := sendLoop_text_empty token provider req r0 rest hmode hr0
      rw [hsl] at h1 h2
      exact Prod.ext h1 h2

/-- C10 witness: with caption "hello" every dispatched body is "hello"; with
no caption and a nonempty group, send_bulk answers HTTP 400 with no calls. -/
theorem send_bulk_group_caption_witness :
    (send_bulk "t" provOk storeGrp7 reqGroup7).1.all (textBodyIs "hello") = true
    ∧ send_bulk "t" provOk storeGrp7 { mode := "text", group_id := some 7 }
        = ([], Except.error (BulkAbort.http 400 "text required in recipients for text mode")) :=
  ⟨(send_bulk_group_caption "t" provOk storeGrp7 reqGroup7 7 rfl rfl rfl (by decide)).1,
   (send_bulk_group_caption "t" provOk storeGrp7 { mode := "text", group_id := some 7 } 7
      rfl rfl rfl (by decide)).2 (by decide) (by decide)⟩

end Eebii

namespace Eebii

/-- C8 (amended): the provider credentials never gate a send: send_bulk makes
exactly the same dispatch payloads and returns exactly the same outcome for
any two tokens — the token appears only in the recorded bearer headers.  In
particular nothing fails with a Configuration error before dispatch when the
credentials are missing; the startup check only prints a warning. -/
theorem send_bulk_token_only_headers (t1 t2 : String)
    (provider : Payload → Except NetExn HttpResp) (s : Store) (req : BulkReq) :
    (send_bulk t1 provider s req).1.map (fun c => c.payload)
      = (send_bulk t2 provider s req).1.map (fun c => c.payload)
    ∧ (send_bulk t1 provider s req).2 = (send_bulk t2 provider s req).2 := by
  cases hR : resolveTargets s req with
  | error e =>
    rw [send_bulk_err t1 provider s req e hR, send_bulk_err t2 provider s req e hR]
    exact ⟨rfl, rfl⟩
  | ok tl =>
    obtain ⟨ha1, hb1⟩ := send_bulk_ok_targets t1 provider s req tl hR
    obtain ⟨ha2, hb2⟩ := send_bulk_ok_targets t2 provider s req tl hR
    obtain ⟨hp, h2⟩ := sendLoop_token t1 t2 provider req tl
    constructor
    · rw [ha1, ha2]
      exact hp
    · rw [hb1, hb2, h2]

/-- C8 counterexample: with both credentials empty (credsMissing), send_bulk
still performs the dispatch call — with an empty bearer token in the header —
and returns the provider's success, instead of failing with a Configuration
error before any dispatch attempt. -/
theorem send_bulk_missing_creds_cex :
    credsMissing "" "" = true
    ∧ send_bulk "" provOk storeEmpty reqOne
        = ([{ headers := [("Authorization", "Bearer "), ("Content-Type", "application/json")],
              payload := Payload.text "+1" "hi" }],
           Except.ok { sent := 1, results := [⟨"+1", 200, none⟩] }) := by
  exact ⟨by decide, by decide⟩

end Eebii
